import Mathlib

/-
Verification development for the AI_Learning-path front-end core:
the persisted artifact store (src/store/learningPathStore.js, shipped here as
src/unnamed/part_001), the remote service facade (src/services/api.js), and the
polling controller (useTaskPolling in src/unnamed/part_001 and ProcessingScreen
in src/screens/HomeScreen.js).

Embedding conventions:
- JavaScript values that may be null/undefined are modelled with Option.
- AsyncStorage is a passive key-value map from keys to the JSON-decoded payload
  (serialization is modelled as the identity round-trip); read/write faults are
  injected through explicit environment parameters, mirroring the places where
  the source awaits AsyncStorage inside try/catch.
- Remote calls are modelled by environment-supplied outcomes (Except for
  throw/resolve); the calls an operation issues are collected in a trace list.
- zustand's set({..}) is modelled as a record update on StoreState; mutations
  performed before a throw survive the throw, exactly as in the source.
-/

namespace LearnPath

/-- Truthiness of a JS string-or-nullish value: null, undefined and the empty
string are falsy, every other string is truthy. -/
def jsTruthyStr : Option String → Bool
  | some s => !(s = "")
  | none => false

/-- Substring containment, modelling JS String.prototype.includes. -/
def strContains (s pat : String) : Bool := decide (pat.data <:+: s.data)

/-- Milestone of a learning path (only fields relevant to the store's
behaviour; the store never inspects milestone internals). -/
structure Milestone where
  title : Option String := none
  description : Option String := none
  deriving Repr, DecidableEq

/-- Learning-path artifact as handled by the store: a JS object with an
optional id, a milestones array, an optional completedMilestones object
(keyed by milestone index), and an optional savedAt timestamp. -/
structure Path where
  id : Option String := none
  topic : Option String := none
  milestones : List Milestone := []
  completedMilestones : Option (List (Nat × Bool)) := none
  savedAt : Option String := none
  deriving Repr, DecidableEq

/-- JS object property assignment obj[k] = v on a map modelled as an
association list: overwrite the entry for k if present, else append it. -/
def setKey (m : List (Nat × Bool)) (k : Nat) (v : Bool) : List (Nat × Bool) :=
  if m.any (fun kv => kv.1 = k) then
    m.map (fun kv => if kv.1 = k then (k, v) else kv)
  else
    m ++ [(k, v)]

/-- State of useLearningPathStore (src/unnamed/part_001, lines 13-20). -/
structure StoreState where
  savedPaths : List Path
  currentPath : Option Path
  taskId : Option String
  taskStatus : Option String
  isGenerating : Bool
  error : Option String
  isLoading : Bool
  currentUserId : Option String
  deriving Repr, DecidableEq

/-- Initial store state from the zustand create call. -/
def initialState : StoreState :=
  { savedPaths := []
    currentPath := none
    taskId := none
    taskStatus := none
    isGenerating := false
    error := none
    isLoading := false
    currentUserId := none }

/-- AsyncStorage contents: key to JSON-decoded saved-paths payload. -/
def Storage : Type := String → Option (List Path)

/-- A successful AsyncStorage.setItem. -/
def storeSet (st : Storage) (key : String) (v : List Path) : Storage :=
  fun k => if k = key then some v else st k

/-- Empty local storage. -/
def emptyStorage : Storage := fun _ => none

/-- Storage key stem, SAVED_PATHS_KEY_PREFIX in the source. -/
def savedPathsKeyStem : String := "@saved_learning_paths_"

/-- Guest sentinel user id. -/
def GUEST_USER_ID : String := "guest"

/-- getStorageKey from src/unnamed/part_001 line 9: the template literal
appends (userId || GUEST_USER_ID), so any falsy userId (null, undefined, the
empty string) falls back to the guest id. -/
def getStorageKey (userId : Option String) : String :=
  savedPathsKeyStem ++ (if jsTruthyStr userId then userId.getD GUEST_USER_ID else GUEST_USER_ID)

/-- Axios-style error object: an optional error code, an optional message, and
the optional error field of an attached response body (error.response.data.error). -/
structure AxiosError where
  code : Option String := none
  message : Option String := none
  responseDataError : Option String := none
  deriving Repr, DecidableEq

/-- Response body of POST /api/generate. -/
structure GenResponse where
  task_id : Option String := none
  status : Option String := none
  result : Option Path := none
  deriving Repr, DecidableEq

/-- Retry predicate of learningPathService.generate (src/services/api.js line
69): error.code === ECONNABORTED, or the message includes timeout, or the
message includes Network Error. -/
def isColdStartError (e : AxiosError) : Bool :=
  e.code == some "ECONNABORTED"
    || (match e.message with
        | some m => strContains m "timeout" || strContains m "Network Error"
        | none => false)

/-- maxRetries in learningPathService.generate. -/
def maxRetries : Nat := 2

/-- Fixed delay in milliseconds awaited before each retry of generate. -/
def retryDelayMs : Nat := 2000

/-- learningPathService.generate (src/services/api.js lines 60-77) run against
a script of attempt outcomes, one outcome per POST /api/generate request.
Returns the surfaced outcome, the number of requests made, and the list of
delays awaited between consecutive attempts; none when the script is too short
to cover the requests the code would make. -/
def generateRun :
    List (Except AxiosError GenResponse) → Nat →
      Option (Except AxiosError GenResponse × Nat × List Nat)
  | [], _ => none
  | o :: rest, retryCount =>
    match o with
    | .ok r => some (.ok r, 1, [])
    | .error e =>
      if retryCount < maxRetries ∧ isColdStartError e = true then
        match generateRun rest (retryCount + 1) with
        | some (res, n, ds) => some (res, n + 1, retryDelayMs :: ds)
        | none => none
      else
        some (.error e, 1, [])

/-- Remote requests an operation can issue (trace elements). -/
inductive ApiCall where
  | generate
  | checkStatus (taskId : String)
  | getResult (taskId : String)
  | savePath
  | deletePath (id : Option String)
  | updateMilestone (pathId : Option String) (idx : Nat) (completed : Bool)
  deriving Repr, DecidableEq

/-- Environment of one loadSavedPaths call: outcome of the remote list fetch
(.error means the GET threw; .ok none means the response had no truthy paths
field; .ok (some l) means response.paths was the array l — note an empty JS
array is truthy), outcome of the mirroring AsyncStorage.setItem, and an
optional fault injected into the local AsyncStorage.getItem / JSON.parse step
(some msg means that step threw with that message). -/
structure LoadEnv where
  remote : Except String (Option (List Path)) := .error "Network Error"
  mirrorWrite : Except String Unit := .ok ()
  localReadFault : Option String := none

/-- Body of the outer try of loadSavedPaths (src/unnamed/part_001 lines
32-57), threading the mutations already applied when a throw escapes: the
result is the escaping error (if any) together with the state and storage at
that point. The inner try around the API fetch swallows its error and falls
through to the local read. -/
def loadSavedPathsTry (s : StoreState) (storage : Storage) (userId : Option String)
    (env : LoadEnv) : Except String Unit × StoreState × Storage :=
  let s1 : StoreState := { s with isLoading := true, currentUserId := userId }
  let remoteDone : Option (Except String Unit × StoreState × Storage) :=
    if jsTruthyStr userId ∧ userId ≠ some GUEST_USER_ID then
      match env.remote with
      | .ok (some paths) =>
        let s2 : StoreState := { s1 with savedPaths := paths, isLoading := false }
        match env.mirrorWrite with
        | .ok _ => some (.ok (), s2, storeSet storage (getStorageKey userId) paths)
        | .error m => some (.error m, s2, storage)
      | .ok none => none
      | .error _ => none
    else none
  match remoteDone with
  | some r => r
  | none =>
    match env.localReadFault with
    | some m => (.error m, s1, storage)
    | none =>
      match storage (getStorageKey userId) with
      | some stored => (.ok (), { s1 with savedPaths := stored, isLoading := false }, storage)
      | none => (.ok (), { s1 with savedPaths := [], isLoading := false }, storage)

/-- loadSavedPaths with its outer catch (which records error.message and
clears isLoading). The Except codomain records whether anything escapes past
the function's boundary; the catch-all handler always returns .ok. -/
def loadSavedPaths (s : StoreState) (storage : Storage) (userId : Option String)
    (env : LoadEnv) : Except String (StoreState × Storage) :=
  match loadSavedPathsTry s storage userId env with
  | (.ok _, s', st') => .ok (s', st')
  | (.error m, s', st') => .ok ({ s' with error := some m, isLoading := false }, st')

/-- persistPaths (src/unnamed/part_001 lines 65-73): write the in-memory
collection to the current user's partition; a storage-write fault is caught
and logged, leaving storage unchanged. -/
def persistPaths (s : StoreState) (storage : Storage) (writeRes : Except String Unit) : Storage :=
  match writeRes with
  | .ok _ => storeSet storage (getStorageKey s.currentUserId) s.savedPaths
  | .error _ => storage

/-- Value returned by generatePath (a JS object literal). -/
structure GenReturn where
  success : Bool
  taskId : Option String := none
  immediate : Option Bool := none
  result : Option Path := none
  error : Option String := none
  deriving Repr, DecidableEq

/-- generatePath (src/unnamed/part_001 lines 76-101), parameterized by the
outcome of the facade's generate call. -/
def generatePath (s : StoreState) (outcome : Except AxiosError GenResponse) :
    StoreState × GenReturn :=
  let s1 : StoreState :=
    { s with isGenerating := true, error := none, taskId := none, taskStatus := none }
  match outcome with
  | .error e =>
    let errorMessage := e.responseDataError.getD "Failed to start generation"
    ({ s1 with error := some errorMessage, isGenerating := false },
     { success := false, error := some errorMessage })
  | .ok response =>
    if response.status = some "finished" ∧ response.result.isSome then
      ({ s1 with currentPath := response.result, taskId := response.task_id,
                 taskStatus := some "finished", isGenerating := false },
       { success := true, taskId := response.task_id, immediate := some true,
         result := response.result })
    else
      ({ s1 with taskId := response.task_id, taskStatus := response.status },
       { success := true, taskId := response.task_id, immediate := some false })

/-- Caller-side decision in SkillAssessmentScreen (lines 749-760): after a
successful generatePath, navigate to the Processing screen (which engages the
polling controller) exactly when the result is not an immediate one carrying a
path. -/
def engagesPollingController (ret : GenReturn) : Bool :=
  ret.success && !(ret.immediate == some true && ret.result.isSome)

/-- Response body of GET /api/status/taskId. -/
structure StatusData where
  status : String
  error : Option String := none
  deriving Repr, DecidableEq

/-- Environment of one pollStatus call: the outcome of the status request and
the outcome of the result fetch (the latter is consulted only when the status
is finished). -/
structure TickEnv where
  statusResp : Except String StatusData
  resultResp : Except String Path := .error "Network Error"

/-- Value returned by pollStatus (a JS object literal). -/
structure PollReturn where
  status : String
  result : Option Path := none
  error : Option String := none
  deriving Repr, DecidableEq

/-- pollStatus (src/unnamed/part_001 lines 104-135): with no taskId, return
no_task without any request; otherwise issue one status request, record the
status, and on finished issue exactly one result fetch. A throw from either
request is caught, recording error.message and clearing isGenerating. The
returned trace lists the requests issued by this call in order. -/
def pollStatus (s : StoreState) (env : TickEnv) : StoreState × List ApiCall × PollReturn :=
  match s.taskId with
  | none => (s, [], { status := "no_task" })
  | some tid =>
    match env.statusResp with
    | .error m =>
      ({ s with error := some m, isGenerating := false },
       [ApiCall.checkStatus tid], { status := "error", error := some m })
    | .ok statusData =>
      let s1 : StoreState := { s with taskStatus := some statusData.status }
      if statusData.status = "finished" then
        match env.resultResp with
        | .ok result =>
          ({ s1 with currentPath := some result, isGenerating := false,
                     taskStatus := some "finished" },
           [ApiCall.checkStatus tid, ApiCall.getResult tid],
           { status := "finished", result := some result })
        | .error m =>
          ({ s1 with error := some m, isGenerating := false },
           [ApiCall.checkStatus tid, ApiCall.getResult tid],
           { status := "error", error := some m })
      else if statusData.status = "failed" then
        ({ s1 with error := some (statusData.error.getD "Generation failed"),
                   isGenerating := false, taskStatus := some "failed" },
         [ApiCall.checkStatus tid], { status := "failed", error := statusData.error })
      else
        (s1, [ApiCall.checkStatus tid], { status := statusData.status })

/-- Statuses on which the interval callbacks of useTaskPolling
(src/unnamed/part_001 line 284) and ProcessingScreen (HomeScreen.js lines
657-665) call clearInterval. -/
def isTerminalStatus (st : String) : Bool :=
  st == "finished" || st == "failed" || st == "error"

/-- The polling loop of useTaskPolling / ProcessingScreen run over a script of
per-tick environments, in the regime where each pollStatus call resolves
before the next interval tick fires: each tick runs pollStatus once and the
interval is cleared as soon as a terminal return status is observed. Returns
the final store state and the concatenated request trace. -/
def runPolling : StoreState → List TickEnv → StoreState × List ApiCall
  | s, [] => (s, [])
  | s, env :: rest =>
    let step := pollStatus s env
    if isTerminalStatus step.2.2.status then
      (step.1, step.2.1)
    else
      let tail := runPolling step.1 rest
      (tail.1, step.2.1 ++ tail.2)

/-- Replace the first element satisfying pred by its image under f; none when
no element matches. This models the source pattern of Array.prototype
findIndex followed by an assignment at that index (first match wins). -/
def updateFirst (pred : Path → Bool) (f : Path → Path) : List Path → Option (List Path)
  | [] => none
  | p :: rest =>
    if pred p then some (f p :: rest)
    else (updateFirst pred f rest).map (fun l => p :: l)

/-- Response body of POST /api/save-path. -/
structure SaveResponse where
  success : Bool
  path_id : Option String := none
  deriving Repr, DecidableEq

/-- Value returned by the mutating store operations (JS object literals with
success plus optional error / pathId fields). -/
structure MutResult where
  success : Bool
  error : Option String := none
  pathId : Option String := none
  deriving Repr, DecidableEq

/-- Identifier adopted by savePath (src/unnamed/part_001 lines 144-152): it
starts as currentPath.id and is overwritten with response.path_id only when
the remote save resolved with success true; a thrown remote save is swallowed
and leaves the client-side id in place. -/
def adoptedPathId (remote : Except AxiosError SaveResponse) (currentPath : Path) :
    Option String :=
  match remote with
  | .ok response => if response.success then response.path_id else currentPath.id
  | .error _ => currentPath.id

/-- Local half of savePath (src/unnamed/part_001 lines 154-169): stamp the
current path with the adopted id and a savedAt timestamp, replace the first
saved entry with the same id or prepend when none matches, store it back as
the current path, persist locally, and report success with the adopted id. -/
def savePathLocal (s : StoreState) (storage : Storage) (currentPath : Path)
    (pathId : Option String) (persistW : Except String Unit) (now : String) :
    StoreState × Storage × MutResult :=
  let pathWithId : Path := { currentPath with id := pathId, savedAt := some now }
  let newPaths : List Path :=
    match updateFirst (fun p => p.id == pathId) (fun _ => pathWithId) s.savedPaths with
    | some replaced => replaced
    | none => pathWithId :: s.savedPaths
  let s1 : StoreState := { s with savedPaths := newPaths, currentPath := some pathWithId }
  (s1, persistPaths s1 storage persistW, { success := true, pathId := pathId })

/-- savePath (src/unnamed/part_001 lines 138-173), parameterized by the remote
save outcome, the fault status of the AsyncStorage write inside persistPaths,
and the current timestamp: with no current path, fail with "No path to save";
otherwise issue the remote save (error swallowed, see adoptedPathId) and run
the unconditional local upsert (savePathLocal). -/
def savePath (s : StoreState) (storage : Storage) (remote : Except AxiosError SaveResponse)
    (persistW : Except String Unit) (now : String) :
    StoreState × Storage × List ApiCall × MutResult :=
  match s.currentPath with
  | none => (s, storage, [], { success := false, error := some "No path to save" })
  | some currentPath =>
    let r := savePathLocal s storage currentPath (adoptedPathId remote currentPath) persistW now
    (r.1, r.2.1, [ApiCall.savePath], r.2.2)

/-- The in-place completion write of updateMilestoneCompletion: set the
entry for the given milestone index on a completedMilestones object created
on demand; no bounds check is performed on the index. -/
def setCompletion (milestoneIndex : Nat) (completed : Bool) (p : Path) : Path :=
  let cm := p.completedMilestones.getD []
  { p with completedMilestones := some (setKey cm milestoneIndex completed) }

/-- updateMilestoneCompletion (src/unnamed/part_001 lines 204-232): locate the
saved path by id; when absent, return a not-found failure before any request
or mutation. Otherwise attempt the remote update (its error is swallowed),
then unconditionally apply setCompletion, and persist locally. -/
def updateMilestoneCompletion (s : StoreState) (storage : Storage) (pathId : Option String)
    (milestoneIndex : Nat) (completed : Bool) (persistW : Except String Unit) :
    StoreState × Storage × List ApiCall × MutResult :=
  match updateFirst (fun p => p.id == pathId) (setCompletion milestoneIndex completed) s.savedPaths with
  | none => (s, storage, [], { success := false, error := some "Path not found" })
  | some newPaths =>
    let s1 : StoreState := { s with savedPaths := newPaths }
    (s1, persistPaths s1 storage persistW,
     [ApiCall.updateMilestone pathId milestoneIndex completed], { success := true })

/-- Timing model of the polling timer as actually constructed by
ProcessingScreen (HomeScreen.js lines 653-671) and useTaskPolling
(src/unnamed/part_001 lines 281-288): setInterval with an async callback.
Tick k (zero-indexed) fires at time (k+1)*interval ms; a fired tick
immediately starts one status request. JS setInterval does not wait for the
previous callback's promise, and the source tracks no in-flight flag, so a
tick fires even while an earlier request is still pending. Tick k's request
start time. -/
def tickStart (interval k : Nat) : Nat := (k + 1) * interval

/-- Completion time of the status request started at tick k, where dur k is
that request's network latency in ms. -/
def tickEnd (interval : Nat) (dur : Nat → Nat) (k : Nat) : Nat :=
  tickStart interval k + dur k

/-- clearInterval runs inside the async callback only after its await
resolves: when tick j's response is terminal, the interval is cleared at
tick j's completion time, so tick k fires iff no earlier terminal tick
completed at or before tick k's fire time. -/
def tickFires (interval : Nat) (dur : Nat → Nat) (terminal : Nat → Bool) (k : Nat) : Prop :=
  ∀ j, j < k → terminal j = true → tickStart interval k < tickEnd interval dur j

/-- The status request of tick k is in flight at time t. -/
def requestInFlight (interval : Nat) (dur : Nat → Nat) (terminal : Nat → Bool)
    (k t : Nat) : Prop :=
  tickFires interval dur terminal k ∧ tickStart interval k ≤ t ∧ t < tickEnd interval dur k

/-- Two distinct status requests of one controller instance are in flight at
the same instant. -/
def statusRequestsOverlap (interval : Nat) (dur : Nat → Nat) (terminal : Nat → Bool) : Prop :=
  ∃ t j k, j ≠ k ∧ requestInFlight interval dur terminal j t
    ∧ requestInFlight interval dur terminal k t

/-- A tick environment whose status request resolves with a status the
polling loop does not treat as terminal. -/
def nonTerminalTick (e : TickEnv) : Bool :=
  match e.statusResp with
  | .ok sd => !isTerminalStatus sd.status
  | .error _ => false

/-- Tick environment delivering status finished and a successful result fetch. -/
def finishTick (r : Path) : TickEnv :=
  { statusResp := .ok { status := "finished" }, resultResp := .ok r }

/-- The data-model invariant of an artifact's milestone-completion map: every
key lies in [0, milestones.length). -/
def pathCompletionInRange (p : Path) : Bool :=
  (p.completedMilestones.getD []).all (fun kv => kv.1 < p.milestones.length)

/-- Concrete artifact with a single milestone, used to exercise the
operations at specific inputs. -/
def samplePath : Path :=
  { id := some "p1", topic := some "Rust", milestones := [{ title := some "Basics" }] }

/-- Concrete synchronous-completion response of POST /api/generate: status
finished with both a task id and an immediate result, matching the documented
success shape of the endpoint. -/
def syncResponse : GenResponse :=
  { task_id := some "t1", status := some "finished", result := some samplePath }

/-- Concrete store holding one saved path, taskId t1 pending. -/
def demoPollState : StoreState := { initialState with taskId := some "t1" }

/-- Concrete scripted prefix of non-terminal statuses: queued, started,
analyzing. -/
def demoTicks : List TickEnv :=
  [{ statusResp := .ok { status := "queued" } },
   { statusResp := .ok { status := "started" } },
   { statusResp := .ok { status := "analyzing" } }]

/-- Concrete store with a current (unsaved) artifact. -/
def demoSaveState : StoreState := { initialState with currentPath := some samplePath }

/-- Helper: a request-count bound for generateRun, generalized over the
starting retryCount. -/
theorem generateRun_request_bound (script : List (Except AxiosError GenResponse)) :
    ∀ (rc : Nat) (res : Except AxiosError GenResponse) (n : Nat) (ds : List Nat),
      generateRun script rc = some (res, n, ds) → n + rc ≤ maxRetries + 1 ∨ n = 1 := by
  induction script with
  | nil => intro rc res n ds h; simp [generateRun] at h
  | cons o rest ih =>
    intro rc res n ds h
    match o with
    | .ok r =>
      simp [generateRun] at h
      right; exact h.2.1.symm
    | .error e =>
      rw [generateRun] at h
      by_cases hc : rc < maxRetries ∧ isColdStartError e = true
      · rw [if_pos hc] at h
        match hrec : generateRun rest (rc + 1) with
        | none => rw [hrec] at h; exact absurd h (by simp)
        | some (res', n', ds') =>
          rw [hrec] at h
          simp at h
          obtain ⟨-, hn, -⟩ := h
          rcases ih (rc + 1) res' n' ds' hrec with hb | hb
          · left; omega
          · left; have := hc.1; omega
      · rw [if_neg hc] at h
        simp at h
        right; exact h.2.1.symm

/-- C10: the local storage partition key is userId mapped to the literal
prefix followed by the user id for every truthy user id, while every falsy
user id (null/undefined modelled as none, or the empty string) maps to the
single guest key, so an empty-string user shares the guest partition. -/
theorem getStorageKey_spec :
    (∀ u : String, u ≠ "" → getStorageKey (some u) = "@saved_learning_paths_" ++ u)
    ∧ getStorageKey none = "@saved_learning_paths_guest"
    ∧ getStorageKey (some "") = "@saved_learning_paths_guest" := by
  refine ⟨fun u hu => ?_, rfl, rfl⟩
  simp [getStorageKey, jsTruthyStr, savedPathsKeyStem, hu]

/-- Witness for getStorageKey_spec at the concrete user id alice. -/
theorem getStorageKey_spec_witness :
    getStorageKey (some "alice") = "@saved_learning_paths_alice"
    ∧ getStorageKey none = "@saved_learning_paths_guest"
    ∧ getStorageKey (some "") = "@saved_learning_paths_guest" := by
  refine ⟨?_, getStorageKey_spec.2.1, getStorageKey_spec.2.2⟩
  rw [getStorageKey_spec.1 "alice" (by decide)]
  decide

/-- C4: the generate call retries a timeout-class or network-unreachable
failure up to 2 more times with a 2000 ms delay before each retry (two
cold-start failures followed by a success surface the success after exactly 3
requests and delays [2000, 2000]); any other error is surfaced immediately
after a single request; and no run starting at retryCount 0 ever makes more
than 3 requests. -/
theorem generate_retry_policy :
    (∀ (e1 e2 : AxiosError) (r : GenResponse) (rest : List (Except AxiosError GenResponse)),
      isColdStartError e1 = true → isColdStartError e2 = true →
      generateRun (.error e1 :: .error e2 :: .ok r :: rest) 0
        = some (.ok r, 3, [retryDelayMs, retryDelayMs]))
    ∧ (∀ (e : AxiosError) (rest : List (Except AxiosError GenResponse)),
      isColdStartError e = false →
      generateRun (.error e :: rest) 0 = some (.error e, 1, []))
    ∧ (∀ (script : List (Except AxiosError GenResponse))
        (res : Except AxiosError GenResponse) (n : Nat) (ds : List Nat),
      generateRun script 0 = some (res, n, ds) → n ≤ 3) := by
  refine ⟨fun e1 e2 r rest h1 h2 => ?_, fun e rest h => ?_, fun script res n ds h => ?_⟩
  · simp [generateRun, h1, h2, maxRetries]
  · simp [generateRun, h]
  · rcases generateRun_request_bound script 0 res n ds h with hb | hb
    · simpa [maxRetries] using hb
    · omega

/-- Witness for generate_retry_policy: a concrete ECONNABORTED error is
cold-start-retryable, a concrete HTTP 500 error is not, and the scripted runs
come out as stated. -/
theorem generate_retry_policy_witness :
    generateRun [.error { code := some "ECONNABORTED" },
                 .error { code := some "ECONNABORTED" },
                 .ok { task_id := some "t1", status := some "queued" }] 0
      = some (.ok { task_id := some "t1", status := some "queued" }, 3, [2000, 2000])
    ∧ generateRun [.error { message := some "Request failed with status code 500" }] 0
      = some (.error { message := some "Request failed with status code 500" }, 1, []) := by
  constructor
  · exact generate_retry_policy.1 { code := some "ECONNABORTED" }
      { code := some "ECONNABORTED" } { task_id := some "t1", status := some "queued" } []
      (by decide) (by decide)
  · exact generate_retry_policy.2.1 { message := some "Request failed with status code 500" } []
      (by decide)

/-- C2: with the controller as built (setInterval with an async callback and
no in-flight flag), two status requests of one controller instance can be in
flight at the same instant: at a 3000 ms poll interval, if each status request
takes 4000 ms, the requests started by tick 0 (at 3000 ms) and tick 1 (at
6000 ms) are both in flight at t = 6000 ms, contradicting strictly sequential
polling. -/
theorem polling_requests_can_overlap :
    statusRequestsOverlap 3000 (fun _ => 4000) (fun _ => false) := by
  refine ⟨6000, 0, 1, by decide, ⟨?_, ?_, ?_⟩, ⟨?_, ?_, ?_⟩⟩
  · intro j hj _; exact absurd hj (Nat.not_lt_zero j)
  · norm_num [tickStart]
  · norm_num [tickStart, tickEnd]
  · intro j hj hterm; simp at hterm
  · norm_num [tickStart]
  · norm_num [tickStart, tickEnd]

/-- Helper: when no element matches, updateFirst finds nothing. -/
theorem updateFirst_eq_none {pred : Path → Bool} {f : Path → Path} :
    ∀ {l : List Path}, (∀ p ∈ l, pred p = false) → updateFirst pred f l = none := by
  intro l
  induction l with
  | nil => intro _; rfl
  | cons p rest ih =>
    intro h
    have hp : pred p = false := h p (by simp)
    simp [updateFirst, hp]
    exact ih fun q hq => h q (by simp [hq])

/-- Helper: updateFirst rewrites exactly the first matching element. -/
theorem updateFirst_first_match {pred : Path → Bool} {f : Path → Path} :
    ∀ (l₁ : List Path) (p : Path) (l₂ : List Path),
      (∀ q ∈ l₁, pred q = false) → pred p = true →
      updateFirst pred f (l₁ ++ p :: l₂) = some (l₁ ++ f p :: l₂) := by
  intro l₁
  induction l₁ with
  | nil => intro p l₂ _ hp; simp [updateFirst, hp]
  | cons q rest ih =>
    intro p l₂ hnone hp
    have hq : pred q = false := hnone q (by simp)
    simp [updateFirst, hq]
    exact ih p l₂ (fun q' hq' => hnone q' (by simp [hq'])) hp

/-- Helper: every element of an updateFirst result is either an element of
the original list or the image of a matching element. -/
theorem updateFirst_mem {pred : Path → Bool} {f : Path → Path} :
    ∀ {l l' : List Path}, updateFirst pred f l = some l' →
      ∀ q ∈ l', q ∈ l ∨ ∃ p, p ∈ l ∧ pred p = true ∧ q = f p := by
  intro l
  induction l with
  | nil => intro l' h; simp [updateFirst] at h
  | cons p rest ih =>
    intro l' h q hq
    by_cases hp : pred p = true
    · simp [updateFirst, hp] at h
      subst h
      rcases List.mem_cons.mp hq with hq | hq
      · exact Or.inr ⟨p, by simp, hp, hq⟩
      · exact Or.inl (by simp [hq])
    · simp [updateFirst, hp] at h
      obtain ⟨l'', hl'', rfl⟩ := h
      rcases List.mem_cons.mp hq with hq | hq
      · exact Or.inl (by simp [hq])
      · rcases ih hl'' q hq with hin | ⟨p', hp', hpred, hfq⟩
        · exact Or.inl (by simp [hin])
        · exact Or.inr ⟨p', by simp [hp'], hpred, hfq⟩

/-- Helper: every key of setKey m k v is k or a key of m. -/
theorem setKey_mem {m : List (Nat × Bool)} {k : Nat} {v : Bool} :
    ∀ kv ∈ setKey m k v, kv.1 = k ∨ ∃ kv' ∈ m, kv.1 = kv'.1 := by
  intro kv hkv
  unfold setKey at hkv
  by_cases h : m.any (fun kv => kv.1 = k)
  · rw [if_pos h] at hkv
    obtain ⟨kv', hkv', heq⟩ := List.mem_map.mp hkv
    by_cases h2 : kv'.1 = k
    · rw [if_pos h2] at heq; left; rw [← heq]
    · rw [if_neg h2] at heq; right; exact ⟨kv', hkv', by rw [← heq]⟩
  · rw [if_neg h] at hkv
    rcases List.mem_append.mp hkv with hin | hone
    · right; exact ⟨kv, hin, rfl⟩
    · left; simp at hone; rw [hone]

/-- C8: updateMilestoneCompletion on a path identifier matching no saved
artifact returns a not-found failure and leaves state and local storage
untouched, issuing no remote request. -/
theorem updateMilestone_not_found_no_effect
    (s : StoreState) (storage : Storage) (pathId : Option String)
    (idx : Nat) (completed : Bool) (persistW : Except String Unit)
    (habs : ∀ p ∈ s.savedPaths, (p.id == pathId) = false) :
    updateMilestoneCompletion s storage pathId idx completed persistW
      = (s, storage, [], { success := false, error := some "Path not found" }) := by
  simp only [updateMilestoneCompletion]
  rw [updateFirst_eq_none habs]

/-- Witness for updateMilestone_not_found_no_effect: a store holding only the
path p1, asked to update path zz. -/
theorem updateMilestone_not_found_no_effect_witness :
    updateMilestoneCompletion { initialState with savedPaths := [samplePath] }
        emptyStorage (some "zz") 0 true (.ok ())
      = ({ initialState with savedPaths := [samplePath] }, emptyStorage, [],
         { success := false, error := some "Path not found" }) :=
  updateMilestone_not_found_no_effect _ _ _ _ _ _ (by decide)

/-- C6 counterexample: updateMilestoneCompletion performs no bounds check on
the milestone index, so updating index 5 of the saved one-milestone artifact
p1 writes the out-of-range key 5 into its completion map, refuting the claim
that writes never produce indices outside [0, milestones.length). -/
theorem updateMilestone_out_of_range_write :
    ¬ (∀ p ∈ (updateMilestoneCompletion { initialState with savedPaths := [samplePath] }
          emptyStorage (some "p1") 5 true (.ok ())).1.savedPaths,
        pathCompletionInRange p = true) := by decide

/-- C6 amended: provided the written index is in range for the matched
artifact and every saved artifact's completion map already satisfies the
range invariant, updateMilestoneCompletion preserves the invariant; the
operation itself performs no bounds check, so out-of-range input indices are
written as-is. -/
theorem updateMilestone_range_amended
    (s : StoreState) (storage : Storage) (pathId : Option String) (idx : Nat)
    (completed : Bool) (persistW : Except String Unit)
    (hprev : ∀ p ∈ s.savedPaths, pathCompletionInRange p = true)
    (hidx : ∀ p ∈ s.savedPaths, (p.id == pathId) = true → idx < p.milestones.length) :
    ∀ p ∈ (updateMilestoneCompletion s storage pathId idx completed persistW).1.savedPaths,
      pathCompletionInRange p = true := by
  intro q hq
  simp only [updateMilestoneCompletion] at hq
  rcases hup : updateFirst (fun p => p.id == pathId) (setCompletion idx completed)
      s.savedPaths with _ | newPaths
  · rw [hup] at hq
    exact hprev q hq
  · rw [hup] at hq
    rcases updateFirst_mem hup q hq with hin | ⟨p, hp, hpred, rfl⟩
    · exact hprev q hin
    · rw [pathCompletionInRange, List.all_eq_true]
      intro kv hkv
      simp only [setCompletion, Option.getD_some] at hkv
      rcases setKey_mem kv hkv with hk | ⟨kv', hkv', heq⟩
      · simp only [setCompletion, decide_eq_true_eq, hk]
        exact hidx p hp hpred
      · have hall := hprev p hp
        rw [pathCompletionInRange, List.all_eq_true] at hall
        have hb := hall kv' hkv'
        simp only [decide_eq_true_eq] at hb ⊢
        simp only [setCompletion]
        rw [heq]; exact hb

/-- Witness for updateMilestone_range_amended: updating index 0 of the saved
one-milestone artifact p1 keeps every completion key in range. -/
theorem updateMilestone_range_amended_witness :
    ((updateMilestoneCompletion { initialState with savedPaths := [samplePath] }
        emptyStorage (some "p1") 0 true (.ok ())).1.savedPaths.all
      (fun p => pathCompletionInRange p)) = true := by
  have h := updateMilestone_range_amended { initialState with savedPaths := [samplePath] }
    emptyStorage (some "p1") 0 true (.ok ()) (by decide) (by decide)
  rw [List.all_eq_true]
  intro p hp
  exact h p hp

/-- C1 counterexample: on the documented synchronous-completion response
(task_id t1, status finished, result present), generatePath does retain the
response's task identifier in the store (taskId becomes some t1, not none), so
the claim's conjunction — artifact stored, no task identifier retained,
immediate success without engaging the polling controller — is false at this
input. -/
theorem generatePath_sync_taskId_retained :
    ¬ ((generatePath initialState (.ok syncResponse)).1.currentPath = some samplePath
       ∧ (generatePath initialState (.ok syncResponse)).1.taskId = none
       ∧ (generatePath initialState (.ok syncResponse)).2.success = true
       ∧ (generatePath initialState (.ok syncResponse)).2.immediate = some true
       ∧ engagesPollingController (generatePath initialState (.ok syncResponse)).2 = false) := by
  decide

/-- C1 amended: when generatePath receives a response with status finished and
a result present, the store's current artifact is set to that result, the
in-flight flag is cleared, the response's task identifier is retained in the
store (taskStatus finished), and the call returns an immediate-success signal
on which the caller does not engage the polling controller. -/
theorem generatePath_sync_amended
    (s : StoreState) (resp : GenResponse) (p : Path)
    (hst : resp.status = some "finished") (hres : resp.result = some p) :
    (generatePath s (.ok resp)).1.currentPath = some p
    ∧ (generatePath s (.ok resp)).1.taskId = resp.task_id
    ∧ (generatePath s (.ok resp)).1.taskStatus = some "finished"
    ∧ (generatePath s (.ok resp)).1.isGenerating = false
    ∧ (generatePath s (.ok resp)).2
        = { success := true, taskId := resp.task_id, immediate := some true, result := some p }
    ∧ engagesPollingController (generatePath s (.ok resp)).2 = false := by
  simp [generatePath, hst, hres, engagesPollingController]

/-- Witness for generatePath_sync_amended at the concrete synchronous
response. -/
theorem generatePath_sync_amended_witness :
    (generatePath initialState (.ok syncResponse)).1.currentPath = some samplePath
    ∧ (generatePath initialState (.ok syncResponse)).1.taskId = some "t1"
    ∧ engagesPollingController (generatePath initialState (.ok syncResponse)).2 = false := by
  have h := generatePath_sync_amended initialState syncResponse samplePath rfl rfl
  exact ⟨h.1, h.2.1, h.2.2.2.2.2⟩

/-- C3 counterexample: on total failure (remote fetch throws and the local
read throws) against a store already holding the saved path p1, loadSavedPaths
records the error but leaves the in-memory collection at its previous non-empty
value — it does not settle to the empty collection as claimed. -/
theorem loadSavedPaths_total_failure_not_emptied :
    loadSavedPaths { initialState with savedPaths := [samplePath] } emptyStorage (some "u1")
        { remote := .error "Network Error", mirrorWrite := .ok (), localReadFault := some "boom" }
      = .ok ({ initialState with
                 savedPaths := [samplePath]
                 currentUserId := some "u1"
                 error := some "boom" }, emptyStorage)
    ∧ [samplePath] ≠ ([] : List Path) := by
  exact ⟨rfl, by decide⟩

/-- C3 amended: loadSavedPaths never lets anything escape past its boundary
(every call returns through the normal or the catch path), and on total
failure — the local read throws, after the remote fetch either failed, found
no paths field, or was not attempted — it records the thrown message as an
observable error, clears isLoading, and leaves the in-memory collection and
local storage at their previous values rather than settling to the empty
collection. -/
theorem loadSavedPaths_total_failure_amended :
    (∀ (s : StoreState) (storage : Storage) (userId : Option String) (env : LoadEnv),
      (loadSavedPaths s storage userId env).isOk = true)
    ∧ (∀ (s : StoreState) (storage : Storage) (userId : Option String)
        (apiMsg msg : String) (mw : Except String Unit),
      loadSavedPaths s storage userId
          { remote := .error apiMsg, mirrorWrite := mw, localReadFault := some msg }
        = .ok ({ s with currentUserId := userId, isLoading := false, error := some msg },
               storage)) := by
  constructor
  · intro s storage userId env
    rw [loadSavedPaths]
    rcases loadSavedPathsTry s storage userId env with ⟨e, s', st'⟩
    cases e <;> rfl
  · intro s storage userId apiMsg msg mw
    rw [loadSavedPaths, loadSavedPathsTry]
    simp

/-- C9: for a truthy non-guest user whose remote list fetch succeeds (and
whose mirroring local write does not fault), loadSavedPaths replaces the
in-memory collection with the fetched list and mirrors it to the local
partition keyed by that user, so afterwards both equal the fetched list;
the local-read path is never consulted. -/
theorem loadSavedPaths_mirror
    (s : StoreState) (storage : Storage) (u : String) (l : List Path)
    (lrf : Option String) (hu1 : u ≠ "") (hu2 : u ≠ GUEST_USER_ID) :
    loadSavedPaths s storage (some u)
        { remote := .ok (some l), mirrorWrite := .ok (), localReadFault := lrf }
      = .ok ({ s with savedPaths := l, isLoading := false, currentUserId := some u },
             storeSet storage (getStorageKey (some u)) l)
    ∧ storeSet storage (getStorageKey (some u)) l (getStorageKey (some u)) = some l := by
  constructor
  · rw [loadSavedPaths, loadSavedPathsTry]
    have hcond : jsTruthyStr (some u) ∧ some u ≠ some GUEST_USER_ID := by
      refine ⟨by simp [jsTruthyStr, hu1], by simpa using hu2⟩
    rw [if_pos hcond]
  · simp [storeSet]

/-- Witness for loadSavedPaths_mirror: user u1 fetching the one-element
remote list. -/
theorem loadSavedPaths_mirror_witness :
    loadSavedPaths initialState emptyStorage (some "u1")
        { remote := .ok (some [samplePath]), mirrorWrite := .ok (), localReadFault := none }
      = .ok ({ initialState with
                 savedPaths := [samplePath]
                 isLoading := false
                 currentUserId := some "u1" },
             storeSet emptyStorage (getStorageKey (some "u1")) [samplePath])
    ∧ storeSet emptyStorage (getStorageKey (some "u1")) [samplePath]
        (getStorageKey (some "u1")) = some [samplePath] :=
  loadSavedPaths_mirror initialState emptyStorage "u1" [samplePath] none
    (by decide) (by decide)

/-- C5: with a current artifact present (and a non-faulting local write),
savePath returns success carrying the adopted identifier — the server-assigned
path_id exactly when the remote save resolved with success, the existing
client-side identifier when the remote save threw — stamps the artifact with
the savedAt timestamp and keeps it as the current path, persists the new
collection to the current user's partition, and upserts by identifier:
the stamped artifact replaces the first saved entry with the same id when one
exists and is prepended (newest first) when none does. -/
theorem savePath_upsert_spec
    (s : StoreState) (storage : Storage) (remote : Except AxiosError SaveResponse)
    (now : String) (cp : Path) (pw : Path)
    (hcp : s.currentPath = some cp)
    (hpw : pw = { cp with id := adoptedPathId remote cp, savedAt := some now }) :
    ((savePath s storage remote (.ok ()) now).2.2.2).success = true
    ∧ ((savePath s storage remote (.ok ()) now).2.2.2).pathId = adoptedPathId remote cp
    ∧ (∀ resp, remote = .ok resp → resp.success = true →
        adoptedPathId remote cp = resp.path_id)
    ∧ (∀ e, remote = .error e → adoptedPathId remote cp = cp.id)
    ∧ (savePath s storage remote (.ok ()) now).1.currentPath = some pw
    ∧ pw.savedAt = some now
    ∧ ((savePath s storage remote (.ok ()) now).2.1) (getStorageKey s.currentUserId)
        = some ((savePath s storage remote (.ok ()) now).1.savedPaths)
    ∧ ((∀ p ∈ s.savedPaths, (p.id == adoptedPathId remote cp) = false) →
        (savePath s storage remote (.ok ()) now).1.savedPaths = pw :: s.savedPaths)
    ∧ (∀ (l₁ : List Path) (q : Path) (l₂ : List Path),
        s.savedPaths = l₁ ++ q :: l₂ →
        (∀ x ∈ l₁, (x.id == adoptedPathId remote cp) = false) →
        (q.id == adoptedPathId remote cp) = true →
        (savePath s storage remote (.ok ()) now).1.savedPaths = l₁ ++ pw :: l₂) := by
  subst hpw
  refine ⟨?_, ?_, ?_, ?_, ?_, rfl, ?_, ?_, ?_⟩
  · simp [savePath, hcp, savePathLocal]
  · simp [savePath, hcp, savePathLocal]
  · intro resp heq hsucc
    subst heq
    simp [adoptedPathId, hsucc]
  · intro e heq
    subst heq
    simp [adoptedPathId]
  · simp [savePath, hcp, savePathLocal]
  · simp [savePath, hcp, savePathLocal, persistPaths, storeSet]
  · intro habs
    simp only [savePath, hcp, savePathLocal]
    rw [updateFirst_eq_none habs]
  · intro l₁ q l₂ hsplit hnone hq
    simp only [savePath, hcp, savePathLocal, hsplit]
    rw [updateFirst_first_match l₁ q l₂ hnone hq]

/-- Witness for savePath_upsert_spec: saving the current path p1 into an
empty collection while the remote save succeeds with server id srv9. -/
theorem savePath_upsert_spec_witness :
    ((savePath demoSaveState emptyStorage (.ok { success := true, path_id := some "srv9" })
        (.ok ()) "2026-10-12").2.2.2).success = true
    ∧ (savePath demoSaveState emptyStorage (.ok { success := true, path_id := some "srv9" })
        (.ok ()) "2026-10-12").1.savedPaths
        = [{ samplePath with id := some "srv9", savedAt := some "2026-10-12" }] := by
  have h := savePath_upsert_spec demoSaveState emptyStorage
    (.ok { success := true, path_id := some "srv9" }) "2026-10-12" samplePath
    { samplePath with id := some "srv9", savedAt := some "2026-10-12" } rfl (by decide)
  refine ⟨h.1, ?_⟩
  have hpre := h.2.2.2.2.2.2.2.1 (by intro p hp; cases hp)
  simpa using hpre

/-- Helper: over a script of non-terminal status ticks followed by a finished
tick with a successful result fetch, the polling loop's request trace is one
status request per non-terminal tick, then the final status request and the
single result fetch. -/
theorem runPolling_nonterminal_trace (tid : String) (r : Path) :
    ∀ (l : List TickEnv) (s : StoreState), s.taskId = some tid →
      (∀ e ∈ l, nonTerminalTick e = true) →
      (runPolling s (l ++ [finishTick r])).2
        = l.map (fun _ => ApiCall.checkStatus tid)
          ++ [ApiCall.checkStatus tid, ApiCall.getResult tid] := by
  intro l
  induction l with
  | nil =>
    intro s hid _
    simp [runPolling, pollStatus, finishTick, hid, isTerminalStatus]
  | cons e rest ih =>
    intro s hid hnt
    rcases he' : e.statusResp with m | sd
    · have he := hnt e (by simp)
      rw [nonTerminalTick, he'] at he
      exact absurd he (by simp)
    · have hterm : isTerminalStatus sd.status = false := by
        have he := hnt e (by simp)
        rw [nonTerminalTick, he'] at he
        simpa using he
      have hne : ¬(sd.status = "finished") ∧ ¬(sd.status = "failed") := by
        constructor <;> intro hst <;> rw [hst] at hterm <;> simp [isTerminalStatus] at hterm
      have hrest := ih { s with taskId := some tid, taskStatus := some sd.status } rfl
        (fun x hx => hnt x (by simp [hx]))
      simp only [List.cons_append, runPolling, pollStatus, hid, he',
        if_neg hne.1, if_neg hne.2, hterm, Bool.false_eq_true, if_false, List.append_eq]
      rw [hrest]
      simp

/-- C7: for every scripted status sequence of non-terminal statuses followed
by finished (with the result fetch succeeding), the polling controller issues
exactly one result-fetch request, it comes after first observing finished,
and no status request is issued after it (the result fetch is the last
request of the trace). -/
theorem polling_single_result_fetch
    (s : StoreState) (tid : String) (l : List TickEnv) (r : Path)
    (hid : s.taskId = some tid)
    (hnt : ∀ e ∈ l, nonTerminalTick e = true) :
    (runPolling s (l ++ [finishTick r])).2
      = l.map (fun _ => ApiCall.checkStatus tid)
        ++ [ApiCall.checkStatus tid, ApiCall.getResult tid]
    ∧ (runPolling s (l ++ [finishTick r])).2.count (ApiCall.getResult tid) = 1
    ∧ (runPolling s (l ++ [finishTick r])).2.getLast? = some (ApiCall.getResult tid) := by
  have htr := runPolling_nonterminal_trace tid r l s hid hnt
  refine ⟨htr, ?_, ?_⟩
  · rw [htr, List.count_append]
    have h0 : (l.map fun _ => ApiCall.checkStatus tid).count (ApiCall.getResult tid) = 0 := by
      rw [List.count_eq_zero]
      intro hmem
      obtain ⟨e, -, habs⟩ := List.mem_map.mp hmem
      exact absurd habs (by simp)
    rw [h0]
    simp [List.count_cons]
  · rw [htr]
    rw [show ([ApiCall.checkStatus tid, ApiCall.getResult tid] : List ApiCall)
        = [ApiCall.checkStatus tid] ++ [ApiCall.getResult tid] from rfl,
      ← List.append_assoc]
    rw [List.getLast?_concat]

/-- Witness for polling_single_result_fetch: the scripted status sequence
queued, started, analyzing, finished against task t1. -/
theorem polling_single_result_fetch_witness :
    (runPolling demoPollState (demoTicks ++ [finishTick samplePath])).2.count
        (ApiCall.getResult "t1") = 1
    ∧ (runPolling demoPollState (demoTicks ++ [finishTick samplePath])).2.getLast?
        = some (ApiCall.getResult "t1") := by
  have h := polling_single_result_fetch demoPollState "t1" demoTicks samplePath rfl
    (by decide)
  exact ⟨h.2.1, h.2.2⟩

end LearnPath
